import Mathlib

/-!
Verification of the Tenant Optimizer approval-gated remediation workflow.

The frontend (src/frontend/src/App.tsx, src/frontend/src/authConfig.js) is
embedded directly: the event traces emitted by `deleteResource`,
`upgradeResource`, `scanOrphanedResources`, `scanDeprecatedResources`,
`handleSubscriptionSelection`, and the MSAL ARM-token state updates.

The backend (FastAPI Approval Store, Classification Engine, Action Executor)
has no implementation source in the repository — only its documentation and
the spec describe it — so those components are modelled from the spec
(sections 4.1 to 4.4) and clearly marked as such in their doc comments.
-/

namespace TenantOptimizer

/-- Action kinds from the spec data model (section 3): `delete` or `upgrade`. -/
inductive ActionKind where
  | delete
  | upgrade
deriving DecidableEq, Repr

/-- Action statuses from the spec data model (section 3):
`proposed → approved → executing → succeeded | failed | manual-required`,
plus the terminal `rejected` reachable from `proposed` (section 4.3). -/
inductive ActionStatus where
  | proposed
  | approved
  | executing
  | succeeded
  | failed
  | manualRequired
  | rejected
deriving DecidableEq, Repr

/-- Modelled from the spec: the Approval Store state machine of section 4.3
(the backend implementation is absent from the repository source).
`allowedTransition s t` holds exactly when the state machine permits an
Action to move from status `s` to status `t`. -/
def allowedTransition : ActionStatus → ActionStatus → Bool
  | .proposed, .approved => true
  | .proposed, .rejected => true
  | .approved, .executing => true
  | .executing, .succeeded => true
  | .executing, .failed => true
  | .executing, .manualRequired => true
  | _, _ => false

/-- Request bodies sent by the client (App.tsx): scan requests carry the
selected subscription ids, delete requests carry a resource id, upgrade
requests carry a resource id and an upgrade type. -/
inductive RequestBody where
  | subs (subscriptions : List String)
  | resource (resourceId : String)
  | resourceUpgrade (resourceId : String) (upgradeType : String)
deriving DecidableEq, Repr

/-- Observable client-side events of the App component (App.tsx):
`setError` models `setError(...)`, `confirmPrompt` models the blocking
`confirm(...)` dialog naming the resource, `httpPost` models a
`fetchWithAuth` POST call carrying the Authorization header, and
`persistApproval` is the vocabulary for a durable approval-record write
(the client code never emits it). -/
inductive ClientEvent where
  | setError (msg : String)
  | confirmPrompt (resourceId : String)
  | httpPost (path : String) (body : RequestBody)
  | persistApproval (resourceId : String)
deriving DecidableEq, Repr

/-- Whether a client event is a durable approval-record write. -/
def ClientEvent.isPersistApproval : ClientEvent → Bool
  | .persistApproval _ => true
  | _ => false

/-- Whether a client event is an HTTP request to the backend. -/
def ClientEvent.isHttpPost : ClientEvent → Bool
  | .httpPost _ _ => true
  | _ => false

/-- `deleteResource` from App.tsx lines 413 to 450: bail out with an error if
no ARM token is held; otherwise show the per-resource `confirm` dialog and,
only if the operator confirms, POST the resource id to
`/api/resources/delete`. The trace lists the emitted events in order;
`confirmed` is the operator reply to the dialog. -/
def deleteResource (armToken : Option String) (confirmed : Bool)
    (resourceId : String) : List ClientEvent :=
  match armToken with
  | none => [.setError "Azure ARM token is required for resource operations"]
  | some _ =>
    .confirmPrompt resourceId ::
      (if confirmed then
        [.httpPost "/api/resources/delete" (.resource resourceId)]
      else [])

/-- `upgradeResource` from App.tsx lines 452 to 576: bail out with an error if
no ARM token is held; otherwise show the per-resource `confirm` dialog and,
only if the operator confirms, POST the resource id and upgrade type to
`/api/resources/upgrade`. -/
def upgradeResource (armToken : Option String) (confirmed : Bool)
    (resourceId : String) (upgradeType : String) : List ClientEvent :=
  match armToken with
  | none => [.setError "Azure ARM token is required for resource operations"]
  | some _ =>
    .confirmPrompt resourceId ::
      (if confirmed then
        [.httpPost "/api/resources/upgrade" (.resourceUpgrade resourceId upgradeType)]
      else [])

/-- `scanOrphanedResources` from App.tsx lines 343 to 376: reject an empty
subscription selection with an error message and no request; reject a missing
ARM token likewise; otherwise POST the selected subscriptions to
`/api/scan/orphaned`. -/
def scanOrphanedResources (selectedSubscriptions : List String)
    (armToken : Option String) : List ClientEvent :=
  if selectedSubscriptions.isEmpty then
    [.setError "Please select at least one subscription to scan."]
  else
    match armToken with
    | none => [.setError "No authentication token available. Please sign in again."]
    | some _ => [.httpPost "/api/scan/orphaned" (.subs selectedSubscriptions)]

/-- `scanDeprecatedResources` from App.tsx lines 378 to 411: identical guard
structure to `scanOrphanedResources`, posting to `/api/scan/deprecated`. -/
def scanDeprecatedResources (selectedSubscriptions : List String)
    (armToken : Option String) : List ClientEvent :=
  if selectedSubscriptions.isEmpty then
    [.setError "Please select at least one subscription to scan."]
  else
    match armToken with
    | none => [.setError "No authentication token available. Please sign in again."]
    | some _ => [.httpPost "/api/scan/deprecated" (.subs selectedSubscriptions)]

/-- `handleSubscriptionSelection` from App.tsx lines 333 to 341: the state
updater passed to `setSelectedSubscriptions` — remove the id if present
(`prev.filter(id => id !== subscriptionId)`), append it if absent
(`[...prev, subscriptionId]`). -/
def handleSubscriptionSelection (prev : List String)
    (subscriptionId : String) : List String :=
  if prev.contains subscriptionId then
    prev.filter (fun id => id != subscriptionId)
  else
    prev ++ [subscriptionId]

/-- The ARM delegated-scope string the redirect handler checks for
(App.tsx line 111). -/
def armUserImpersonationScope : String :=
  "https://management.azure.com/user_impersonation"

/-- `armRequest.scopes` from authConfig.js line 26: the scopes the App passes
to every `acquireTokenSilent` and `acquireTokenRedirect` call for ARM. -/
def armRequestScopes : List String := ["https://management.azure.com/.default"]

/-- Events that can update the `armToken` state variable of the App component.
`redirectResponse scopes tok` models `handleRedirectPromise()` resolving with
a response carrying those scopes and (optionally) an access token (App.tsx
lines 88 to 117). `silentSuccess tok` models `acquireTokenSilent` inside
`acquireArmToken` succeeding (App.tsx lines 190 to 199); by the code of
`acquireArmToken` that call is always made with `armRequest.scopes`, so the
event carries only the token. `silentFailure` models the catch branch of
`acquireArmToken`, which never assigns `armToken` (it either redirects away
or throws). -/
inductive MsalEvent where
  | redirectResponse (scopes : List String) (accessToken : Option String)
  | silentSuccess (accessToken : String)
  | silentFailure
deriving DecidableEq, Repr

/-- One step of the `armToken` state: `setArmToken` is called at exactly two
sites in App.tsx — line 112, inside the redirect handler and guarded by
`response.accessToken` being present and `response.scopes` containing the ARM
user_impersonation scope, and line 199, on `acquireTokenSilent` success. All
other events leave `armToken` unchanged. -/
def armTokenStep (armToken : Option String) : MsalEvent → Option String
  | .redirectResponse scopes (some tok) =>
      if scopes.contains armUserImpersonationScope then some tok else armToken
  | .redirectResponse _ none => armToken
  | .silentSuccess tok => some tok
  | .silentFailure => armToken

/-- The `armToken` state after the App processes a sequence of MSAL events,
starting from the initial `useState<string | null>(null)` (App.tsx line 65). -/
def runArmToken (events : List MsalEvent) : Option String :=
  events.foldl armTokenStep none

/-- `tok` was obtained from an ARM-scoped MSAL response among `events`:
either a redirect response whose scopes include the ARM user_impersonation
scope, or an `acquireTokenSilent` success (made with `armRequest.scopes` by
construction of `acquireArmToken`). -/
def armScopedProvenance (events : List MsalEvent) (tok : String) : Prop :=
  (∃ scopes, MsalEvent.redirectResponse scopes (some tok) ∈ events ∧
    scopes.contains armUserImpersonationScope = true) ∨
  MsalEvent.silentSuccess tok ∈ events

/-- Resource from the spec data model (section 3): identifier, display name,
type, location, resource group, subscription identifier. -/
structure Resource where
  id : String
  name : String
  resourceType : String
  location : String
  resourceGroup : String
  subscriptionId : String
deriving DecidableEq, Repr

/-- Modelled from the spec: a Ruleset for the Classification Engine of
section 4.2 (the backend implementation is absent from the repository
source). `isOrphaned` is the rule-based structural predicate for orphaned
detection; `isDeprecated` is the retiring-SKU rule match; the template
fields supply the per-rule issue/recommendation text. -/
structure Ruleset where
  isOrphaned : Resource → Bool
  isDeprecated : Resource → Bool
  orphanIssue : Resource → String
  orphanRecommendation : Resource → String
  deprecatedIssue : Resource → String
  deprecatedRecommendation : Resource → String

/-- Finding priority levels from the spec data model (section 3). -/
inductive Priority where
  | critical
  | high
  | medium
  | low
deriving DecidableEq, Repr

/-- Modelled from the spec: the default priority used when LLM enrichment is
unavailable (section 4.2: degrade to rule-only output with a default
priority). -/
def defaultPriority : Priority := Priority.medium

/-- Finding category from the spec data model (section 3). -/
inductive Category where
  | orphaned
  | deprecated
deriving DecidableEq, Repr

/-- Finding from the spec data model (section 3): resource reference,
category, issue description, recommendation, priority. -/
structure Finding where
  resource : Resource
  category : Category
  analysis : String
  recommendation : String
  priority : Priority
deriving DecidableEq, Repr

/-- Modelled from the spec: the advisory output of the LLM enrichment call
(section 4.2): a human-readable analysis and recommendation string and a
priority estimate. An enrichment function returns `none` when the LLM call
fails, times out, or is unavailable. -/
structure Enrichment where
  analysis : String
  recommendation : String
  priority : Priority
deriving DecidableEq, Repr

/-- Classification result of section 4.2: disjoint orphaned and deprecated
finding sets. -/
structure ClassifyResult where
  orphaned : List Finding
  deprecated : List Finding
deriving DecidableEq, Repr

/-- Modelled from the spec: the orphaned Finding built from the matched
rule templates (section 4.2; the backend implementation is absent from the
repository source). -/
def orphanFinding (rs : Ruleset) (r : Resource) : Finding :=
  { resource := r
    category := Category.orphaned
    analysis := rs.orphanIssue r
    recommendation := rs.orphanRecommendation r
    priority := defaultPriority }

/-- Modelled from the spec: the deprecated Finding for one rule-matched
resource (section 4.2; the backend implementation is absent from the
repository source): enrichment output supplies analysis, recommendation and
priority when the LLM call is available; otherwise the rule templates and
the default priority are used. -/
def deprecatedFinding (rs : Ruleset) (enrich : Resource → Option Enrichment)
    (r : Resource) : Finding :=
  match enrich r with
  | some e =>
    { resource := r
      category := Category.deprecated
      analysis := e.analysis
      recommendation := e.recommendation
      priority := e.priority }
  | none =>
    { resource := r
      category := Category.deprecated
      analysis := rs.deprecatedIssue r
      recommendation := rs.deprecatedRecommendation r
      priority := defaultPriority }

/-- Modelled from the spec: `classify` of the Classification Engine
(section 4.2; the backend implementation is absent from the repository
source). Orphaned detection is rule-based; a resource matching an orphaned
rule goes in the orphaned set and never the deprecated set (section 8
mutual exclusivity). Deprecated detection is rule matching plus optional
enrichment, never failing the scan (classification is total: no error
outcome exists in its type). Findings keep the order resources were
discovered (section 4.2 tie-break). -/
def classify (resources : List Resource) (rs : Ruleset)
    (enrich : Resource → Option Enrichment) : ClassifyResult :=
  { orphaned := (resources.filter rs.isOrphaned).map (orphanFinding rs)
    deprecated :=
      (resources.filter (fun r => !rs.isOrphaned r && rs.isDeprecated r)).map
        (deprecatedFinding rs enrich) }

/-- Modelled from the spec: the result type of `listResources` of the
Resource Inventory Client (section 4.1; the backend implementation is absent
from the repository source). `emptyRequest` is the failure for an empty
subscription list, `unauthorized` for a token lacking read scope on a listed
subscription, `partialFailure` returns the resources that could be fetched
plus the failed subscription ids. -/
inductive ListResult where
  | ok (resources : List Resource)
  | emptyRequest
  | unauthorized
  | partialFailure (resources : List Resource) (failedIds : List String)
deriving DecidableEq, Repr

/-- Modelled from the spec: `listResources` of section 4.1 (the backend
implementation is absent from the repository source). `authorized` says
whether the caller token has read scope on a subscription; `reachable` says
whether the subscription is currently reachable; `inventory` is the resource
graph. subscriptionIds must be non-empty; all must be authorized; otherwise
resources of reachable subscriptions are returned, as a partial failure when
some subscriptions are unreachable. -/
def listResources (authorized : String → Bool) (reachable : String → Bool)
    (inventory : String → List Resource)
    (subscriptionIds : List String) : ListResult :=
  if subscriptionIds.isEmpty then
    ListResult.emptyRequest
  else if !subscriptionIds.all authorized then
    ListResult.unauthorized
  else
    let failed := subscriptionIds.filter (fun s => !reachable s)
    let fetched :=
      (subscriptionIds.filter reachable).flatMap inventory
    if failed.isEmpty then ListResult.ok fetched
    else ListResult.partialFailure fetched failed

/-- Action from the spec data model (section 3): target resource id, action
kind, status, the approver recorded on approval, and the stored outcome
detail retained for audit. -/
structure Action where
  id : Nat
  resourceId : String
  kind : ActionKind
  status : ActionStatus
  approver : Option String
  outcomeDetail : Option String
deriving DecidableEq, Repr

/-- Modelled from the spec: the Approval Store of section 4.3 (the backend
implementation is absent from the repository source): the durable record of
Actions, with a fresh-id counter. -/
structure ApprovalStore where
  actions : List Action
  nextId : Nat
deriving DecidableEq, Repr

/-- The Action for a given resource id and action kind that is still
`proposed`, when one exists (the upsert key of `recordFinding`). -/
def findProposed (s : ApprovalStore) (rid : String) (k : ActionKind) :
    Option Action :=
  s.actions.find? (fun a =>
    decide (a.resourceId = rid ∧ a.kind = k ∧ a.status = ActionStatus.proposed))

/-- Modelled from the spec: `recordFinding` of section 4.3 (the backend
implementation is absent from the repository source): an idempotent upsert —
if an Action for the same resource id and action kind is still `proposed`,
its id is returned and the store is unchanged; otherwise a fresh `proposed`
Action is appended. -/
def recordFinding (s : ApprovalStore) (rid : String) (k : ActionKind) :
    Nat × ApprovalStore :=
  match findProposed s rid k with
  | some a => (a.id, s)
  | none =>
    (s.nextId,
      { actions := s.actions ++
          [{ id := s.nextId, resourceId := rid, kind := k,
             status := ActionStatus.proposed, approver := none,
             outcomeDetail := none }],
        nextId := s.nextId + 1 })

/-- Store errors of sections 4.3 and 7: `notFound` when no Action has the
requested id, `invalidTransition` when the Action is not in the expected
state, carrying the current state so the caller can resynchronize. -/
inductive StoreError where
  | notFound
  | invalidTransition (current : ActionStatus)
deriving DecidableEq, Repr

/-- Modelled from the spec: the HTTP status each store error surfaces as
(section 7): `InvalidTransition` is surfaced as 409 Conflict. -/
def errorHttpStatus : StoreError → Nat
  | .notFound => 404
  | .invalidTransition _ => 409

/-- The Action with a given id, when one exists. -/
def findAction (s : ApprovalStore) (actionId : Nat) : Option Action :=
  s.actions.find? (fun a => decide (a.id = actionId))

/-- Modelled from the spec: `approve` of section 4.3 (the backend
implementation is absent from the repository source): fails with `NotFound`
if the action does not exist, with `InvalidTransition` (carrying the current
state) if the action is not currently `proposed`; otherwise records the
approver and moves the action to `approved`. -/
def approve (s : ApprovalStore) (actionId : Nat) (approver : String) :
    Except StoreError (Action × ApprovalStore) :=
  match findAction s actionId with
  | none => Except.error StoreError.notFound
  | some a =>
    if a.status = ActionStatus.proposed then
      let approvedAction :=
        { a with status := ActionStatus.approved, approver := some approver }
      Except.ok (approvedAction,
        { s with actions := s.actions.map (fun b =>
            if b.id = actionId then approvedAction else b) })
    else
      Except.error (StoreError.invalidTransition a.status)

/-- Modelled from the spec: the cloud provider management API as a pure
oracle for the Action Executor of section 4.4 (the backend implementation is
absent from the repository source). `attachedTo` reports the resource a
target is currently attached to, when any — the precondition that blocks
in-place upgrade; `manualSteps` and `consoleLink` supply the structured
manual steps and deep link returned on `manual-required`. -/
structure Provider where
  deleteOk : String → Bool
  deleteErrorDetail : String → String
  attachedTo : String → Option String
  upgradeOk : String → Bool
  upgradeErrorDetail : String → String
  manualSteps : String → List String
  consoleLink : String → String

/-- A side-effecting call the executor makes against customer
infrastructure. -/
inductive ProviderCall where
  | deleteCall (resourceId : String)
  | upgradeCall (resourceId : String)
deriving DecidableEq, Repr

/-- The outcome of one `execute` invocation: the updated Action, the outcome
detail string, the provider calls that were made, and the manual steps when
automated upgrade was blocked. -/
structure ExecResult where
  action : Action
  outcomeDetail : String
  calls : List ProviderCall
  manualSteps : List String
deriving DecidableEq, Repr

/-- Modelled from the spec: `execute` of the Action Executor (section 4.4;
the backend implementation is absent from the repository source).
Re-invoking on an action already `succeeded` is a no-op reporting the stored
prior outcome with no provider call; any status other than `approved` (or
`succeeded`) is refused with `InvalidTransition`, so execution is never
reachable without a prior approval. For `delete` the provider delete call is
made and the action moves to `succeeded` or `failed` (retaining the error
detail for audit). For `upgrade`, an attachment precondition blocks the
automated path and yields `manual-required` with structured steps and a
console deep link instead of a destructive workaround; otherwise the
provider upgrade call is made. -/
def execute (p : Provider) (a : Action) : Except StoreError ExecResult :=
  if a.status = ActionStatus.succeeded then
    Except.ok
      { action := a
        outcomeDetail := a.outcomeDetail.getD "succeeded"
        calls := []
        manualSteps := [] }
  else if a.status = ActionStatus.approved then
    match a.kind with
    | ActionKind.delete =>
      if p.deleteOk a.resourceId then
        Except.ok
          { action := { a with status := ActionStatus.succeeded,
                               outcomeDetail := some "succeeded" }
            outcomeDetail := "succeeded"
            calls := [ProviderCall.deleteCall a.resourceId]
            manualSteps := [] }
      else
        Except.ok
          { action := { a with status := ActionStatus.failed,
                               outcomeDetail := some (p.deleteErrorDetail a.resourceId) }
            outcomeDetail := p.deleteErrorDetail a.resourceId
            calls := [ProviderCall.deleteCall a.resourceId]
            manualSteps := [] }
    | ActionKind.upgrade =>
      match p.attachedTo a.resourceId with
      | some blocker =>
        Except.ok
          { action := { a with status := ActionStatus.manualRequired,
                               outcomeDetail := some ("attached to " ++ blocker) }
            outcomeDetail := "attached to " ++ blocker
            calls := []
            manualSteps := p.manualSteps a.resourceId ++ [p.consoleLink a.resourceId] }
      | none =>
        if p.upgradeOk a.resourceId then
          Except.ok
            { action := { a with status := ActionStatus.succeeded,
                                 outcomeDetail := some "succeeded" }
              outcomeDetail := "succeeded"
              calls := [ProviderCall.upgradeCall a.resourceId]
              manualSteps := [] }
        else
          Except.ok
            { action := { a with status := ActionStatus.failed,
                                 outcomeDetail := some (p.upgradeErrorDetail a.resourceId) }
              outcomeDetail := p.upgradeErrorDetail a.resourceId
              calls := [ProviderCall.upgradeCall a.resourceId]
              manualSteps := [] }
  else
    Except.error (StoreError.invalidTransition a.status)

/-- A concrete unattached public IP resource (end-to-end scenario 1 of
section 8), used to evaluate the definitions on concrete inputs. -/
def sampleIp : Resource :=
  { id := "ip-1"
    name := "unattached-ip"
    resourceType := "public-ip"
    location := "westeurope"
    resourceGroup := "rg-1"
    subscriptionId := "sub-1" }

/-- A concrete deprecated-SKU SQL instance resource, used to evaluate the
definitions on concrete inputs. -/
def sampleSql : Resource :=
  { id := "sql-1"
    name := "legacy-sql"
    resourceType := "sql-instance"
    location := "westeurope"
    resourceGroup := "rg-1"
    subscriptionId := "sub-1" }

/-- A concrete ruleset: public IPs match the orphaned rule, SQL instances
match the deprecated rule. -/
def sampleRuleset : Ruleset :=
  { isOrphaned := fun r => decide (r.resourceType = "public-ip")
    isDeprecated := fun r => decide (r.resourceType = "sql-instance")
    orphanIssue := fun _ => "public IP with no associated network interface"
    orphanRecommendation := fun _ => "delete the unattached public IP"
    deprecatedIssue := fun _ => "SKU is on a known-retiring list"
    deprecatedRecommendation := fun _ => "upgrade to a supported SKU"
    }

/-- A concrete Approval Store holding one proposed delete Action. -/
def sampleStore : ApprovalStore :=
  { actions :=
      [{ id := 0
         resourceId := "res-1"
         kind := ActionKind.delete
         status := ActionStatus.proposed
         approver := none
         outcomeDetail := none }]
    nextId := 1 }

/-- A concrete provider oracle on which every call succeeds and no resource
is attached to another. -/
def sampleProvider : Provider :=
  { deleteOk := fun _ => true
    deleteErrorDetail := fun _ => "delete failed"
    attachedTo := fun _ => none
    upgradeOk := fun _ => true
    upgradeErrorDetail := fun _ => "upgrade failed"
    manualSteps := fun _ => ["upgrade manually in the console"]
    consoleLink := fun rid => "https://portal.azure.com/#resource/" ++ rid }

/-! Helper lemmas shared by the claim theorems. -/

/-- `find?` over an append skips a first segment with no match. -/
theorem find?_append_of_none {α : Type} (p : α → Bool) (l₁ l₂ : List α)
    (h : l₁.find? p = none) : (l₁ ++ l₂).find? p = l₂.find? p := by
  simp [List.find?_append, h]

/-- The deprecated finding always references the classified resource,
whatever the enrichment returned. -/
theorem deprecatedFinding_resource (rs : Ruleset)
    (enrich : Resource → Option Enrichment) (r : Resource) :
    (deprecatedFinding rs enrich r).resource = r := by
  cases h : enrich r <;> simp [deprecatedFinding, h]

/-- The resources referenced by the orphaned findings of a classification
are exactly the resources matching an orphaned rule, in discovery order. -/
theorem classify_orphaned_resources (resources : List Resource) (rs : Ruleset)
    (enrich : Resource → Option Enrichment) :
    (classify resources rs enrich).orphaned.map Finding.resource =
      resources.filter rs.isOrphaned := by
  simp [classify, List.map_map]
  exact List.map_id _

/-- The resources referenced by the deprecated findings of a classification
are exactly the resources matching a deprecated rule and no orphaned rule,
in discovery order. -/
theorem classify_deprecated_resources (resources : List Resource)
    (rs : Ruleset) (enrich : Resource → Option Enrichment) :
    (classify resources rs enrich).deprecated.map Finding.resource =
      resources.filter (fun r => !rs.isOrphaned r && rs.isDeprecated r) := by
  simp only [classify, List.map_map]
  have hcongr :
      (resources.filter (fun r => !rs.isOrphaned r && rs.isDeprecated r)).map
          (Finding.resource ∘ deprecatedFinding rs enrich) =
        (resources.filter (fun r => !rs.isOrphaned r && rs.isDeprecated r)).map
          (fun r => r) := by
    apply List.map_congr_left
    intro a _
    exact deprecatedFinding_resource rs enrich a
  rw [hcongr]
  exact List.map_id _

/-- Folding the `armToken` step from any start: the final token is either
the start value, or it has ARM-scoped provenance among the events. -/
theorem armToken_foldl_provenance (events : List MsalEvent) (st : Option String)
    (tok : String) (h : events.foldl armTokenStep st = some tok) :
    st = some tok ∨ armScopedProvenance events tok := by
  induction events generalizing st with
  | nil => exact Or.inl h
  | cons e es ih =>
    rcases ih (armTokenStep st e) h with h' | h'
    · cases e with
      | redirectResponse scopes accessToken =>
        cases accessToken with
        | none => exact Or.inl h'
        | some t =>
          simp only [armTokenStep] at h'
          by_cases hc : scopes.contains armUserImpersonationScope = true
          · rw [if_pos hc, Option.some.injEq] at h'
            subst h'
            exact Or.inr (Or.inl ⟨scopes, List.mem_cons_self _ _, hc⟩)
          · rw [if_neg hc] at h'
            exact Or.inl h'
      | silentSuccess t =>
        simp only [armTokenStep, Option.some.injEq] at h'
        subst h'
        exact Or.inr (Or.inr (List.mem_cons_self _ _))
      | silentFailure => exact Or.inl h'
    · right
      rcases h' with ⟨scopes, hmem, hscope⟩ | hmem
      · exact Or.inl ⟨scopes, List.mem_cons_of_mem _ hmem, hscope⟩
      · exact Or.inr (List.mem_cons_of_mem _ hmem)

/-! Claim theorems. -/

/-- C8: a scan or listResources request carrying an empty list of
subscription ids fails: `listResources` rejects it without querying the
inventory, and both client scan handlers set the error message and issue no
HTTP request to the backend. -/
theorem C8_empty_subscriptions_rejected (authorized reachable : String → Bool)
    (inventory : String → List Resource) (armToken : Option String) :
    listResources authorized reachable inventory [] = ListResult.emptyRequest ∧
    scanOrphanedResources [] armToken =
      [ClientEvent.setError "Please select at least one subscription to scan."] ∧
    scanDeprecatedResources [] armToken =
      [ClientEvent.setError "Please select at least one subscription to scan."] ∧
    (scanOrphanedResources [] armToken).all (fun e => !e.isHttpPost) = true ∧
    (scanDeprecatedResources [] armToken).all (fun e => !e.isHttpPost) = true :=
  ⟨rfl, rfl, rfl, rfl, rfl⟩

/-- C9: the `armToken` state variable only ever holds a token obtained from
an ARM-scoped MSAL response: a redirect response whose scopes include the
ARM user_impersonation scope, or an `acquireTokenSilent` call made with
`armRequest.scopes`. -/
theorem C9_armToken_only_arm_scoped (events : List MsalEvent) (tok : String)
    (h : runArmToken events = some tok) : armScopedProvenance events tok := by
  rcases armToken_foldl_provenance events none tok h with h' | h'
  · exact absurd h' (by simp)
  · exact h'

/-- Witness for C9 at a concrete event sequence. -/
theorem C9_witness :
    armScopedProvenance [MsalEvent.silentSuccess "arm-token"] "arm-token" :=
  C9_armToken_only_arm_scoped [MsalEvent.silentSuccess "arm-token"] "arm-token" rfl

/-- C10: `handleSubscriptionSelection` toggles membership — one call negates
the given id's membership and leaves every other id's membership unchanged;
two calls with the same id restore the original membership, and from a list
not containing the id, two calls restore exactly the original list. -/
theorem C10_handleSubscriptionSelection_toggles (prev : List String)
    (i j : String) :
    (i ∈ handleSubscriptionSelection prev i ↔ i ∉ prev) ∧
    (j ≠ i → (j ∈ handleSubscriptionSelection prev i ↔ j ∈ prev)) ∧
    (j ∈ handleSubscriptionSelection (handleSubscriptionSelection prev i) i ↔
      j ∈ prev) ∧
    (i ∉ prev → handleSubscriptionSelection (handleSubscriptionSelection prev i) i = prev) := by
  by_cases hp : i ∈ prev
  · have hc : prev.contains i = true := by simpa using hp
    have h1 : handleSubscriptionSelection prev i = prev.filter (fun id => id != i) := by
      simp only [handleSubscriptionSelection]
      rw [if_pos hc]
    have hc2 : (prev.filter (fun id => id != i)).contains i = false := by
      simp
    have h2 : handleSubscriptionSelection (prev.filter (fun id => id != i)) i =
        prev.filter (fun id => id != i) ++ [i] := by
      simp only [handleSubscriptionSelection]
      rw [hc2]
      simp
    refine ⟨?_, ?_, ?_, ?_⟩
    · rw [h1]
      simp [hp, List.mem_filter]
    · intro hji
      rw [h1]
      simp [List.mem_filter, bne_iff_ne, hji]
    · rw [h1, h2]
      by_cases hj : j = i
      · subst hj
        simp [hp]
      · simp [List.mem_append, List.mem_filter, bne_iff_ne, hj]
    · intro habs
      exact absurd hp habs
  · have hc : prev.contains i = false := by simpa using hp
    have h1 : handleSubscriptionSelection prev i = prev ++ [i] := by
      simp only [handleSubscriptionSelection]
      rw [hc]
      simp
    have hc2 : (prev ++ [i]).contains i = true := by simp
    have hkey : handleSubscriptionSelection (prev ++ [i]) i = prev := by
      simp only [handleSubscriptionSelection]
      rw [if_pos hc2, List.filter_append]
      have hself : prev.filter (fun id => id != i) = prev := by
        apply List.filter_eq_self.mpr
        intro a ha
        exact bne_iff_ne.mpr (fun hai => hp (hai ▸ ha))
      simp [hself]
    refine ⟨?_, ?_, ?_, ?_⟩
    · rw [h1]
      simp [hp]
    · intro hji
      rw [h1]
      simp [hji]
    · rw [h1, hkey]
    · intro _
      rw [h1, hkey]

/-- Witness for C10 at a concrete selection list. -/
theorem C10_witness :
    handleSubscriptionSelection
      (handleSubscriptionSelection ["sub-a", "sub-b"] "sub-c") "sub-c" =
      ["sub-a", "sub-b"] :=
  (C10_handleSubscriptionSelection_toggles ["sub-a", "sub-b"] "sub-c" "sub-a").2.2.2
    (by decide)

/-- C1: the transition into `executing` happens only after explicit operator
approval — in the Approval Store state machine the only status permitted to
transition to `executing` is `approved`; in the client, an invocation of the
delete or upgrade endpoint occurs only when the operator confirmed the
per-resource dialog, with the confirmation immediately preceding the request
in the trace; and no scan code path posts to a delete or upgrade endpoint. -/
theorem C1_executing_requires_approval (tok : Option String) (confirmed : Bool)
    (rid utype : String) (subs : List String) (p : String) (b : RequestBody)
    (s : ActionStatus) :
    (ClientEvent.httpPost "/api/resources/delete" (RequestBody.resource rid) ∈
        deleteResource tok confirmed rid →
      confirmed = true ∧
      deleteResource tok confirmed rid =
        [ClientEvent.confirmPrompt rid,
         ClientEvent.httpPost "/api/resources/delete" (RequestBody.resource rid)]) ∧
    (ClientEvent.httpPost "/api/resources/upgrade"
        (RequestBody.resourceUpgrade rid utype) ∈
        upgradeResource tok confirmed rid utype →
      confirmed = true ∧
      upgradeResource tok confirmed rid utype =
        [ClientEvent.confirmPrompt rid,
         ClientEvent.httpPost "/api/resources/upgrade"
           (RequestBody.resourceUpgrade rid utype)]) ∧
    (ClientEvent.httpPost p b ∈ scanOrphanedResources subs tok →
      p = "/api/scan/orphaned") ∧
    (ClientEvent.httpPost p b ∈ scanDeprecatedResources subs tok →
      p = "/api/scan/deprecated") ∧
    (allowedTransition s ActionStatus.executing = true →
      s = ActionStatus.approved) := by
  refine ⟨?_, ?_, ?_, ?_, ?_⟩
  · intro hmem
    cases tok with
    | none => simp [deleteResource] at hmem
    | some t =>
      cases confirmed with
      | false => simp [deleteResource] at hmem
      | true => exact ⟨rfl, rfl⟩
  · intro hmem
    cases tok with
    | none => simp [upgradeResource] at hmem
    | some t =>
      cases confirmed with
      | false => simp [upgradeResource] at hmem
      | true => exact ⟨rfl, rfl⟩
  · intro hmem
    simp only [scanOrphanedResources] at hmem
    by_cases he : subs.isEmpty = true
    · rw [if_pos he] at hmem
      simp at hmem
    · rw [if_neg he] at hmem
      cases tok with
      | none => simp at hmem
      | some t =>
        simp at hmem
        exact hmem.1
  · intro hmem
    simp only [scanDeprecatedResources] at hmem
    by_cases he : subs.isEmpty = true
    · rw [if_pos he] at hmem
      simp at hmem
    · rw [if_neg he] at hmem
      cases tok with
      | none => simp at hmem
      | some t =>
        simp at hmem
        exact hmem.1
  · intro htr
    cases s <;> simp_all [allowedTransition]

/-- Witness for C1 at concrete inputs. -/
theorem C1_witness :
    (true = true ∧
      deleteResource (some "tok") true "res-1" =
        [ClientEvent.confirmPrompt "res-1",
         ClientEvent.httpPost "/api/resources/delete" (RequestBody.resource "res-1")]) ∧
    (true = true ∧
      upgradeResource (some "tok") true "res-1" "sku-upgrade" =
        [ClientEvent.confirmPrompt "res-1",
         ClientEvent.httpPost "/api/resources/upgrade"
           (RequestBody.resourceUpgrade "res-1" "sku-upgrade")]) ∧
    "/api/scan/orphaned" = "/api/scan/orphaned" ∧
    "/api/scan/deprecated" = "/api/scan/deprecated" ∧
    ActionStatus.approved = ActionStatus.approved := by
  refine ⟨?_, ?_, ?_, ?_, ?_⟩
  · exact (C1_executing_requires_approval (some "tok") true "res-1" "sku-upgrade"
      ["sub-1"] "/api/scan/orphaned" (RequestBody.subs ["sub-1"])
      ActionStatus.approved).1 (by decide)
  · exact (C1_executing_requires_approval (some "tok") true "res-1" "sku-upgrade"
      ["sub-1"] "/api/scan/orphaned" (RequestBody.subs ["sub-1"])
      ActionStatus.approved).2.1 (by decide)
  · exact (C1_executing_requires_approval (some "tok") true "res-1" "sku-upgrade"
      ["sub-1"] "/api/scan/orphaned" (RequestBody.subs ["sub-1"])
      ActionStatus.approved).2.2.1 (by decide)
  · exact (C1_executing_requires_approval (some "tok") true "res-1" "sku-upgrade"
      ["sub-1"] "/api/scan/deprecated" (RequestBody.subs ["sub-1"])
      ActionStatus.approved).2.2.2.1 (by decide)
  · exact (C1_executing_requires_approval (some "tok") true "res-1" "sku-upgrade"
      ["sub-1"] "/api/scan/orphaned" (RequestBody.subs ["sub-1"])
      ActionStatus.approved).2.2.2.2 (by decide)

/-- C2 counterexample: in the confirmed client delete flow at a concrete
input, the side-effecting provider endpoint is invoked while the emitted
trace contains no durable approval-record write at all — so no `approved`
record is persisted before the provider call. -/
theorem C2_counterexample :
    ClientEvent.httpPost "/api/resources/delete" (RequestBody.resource "res-1") ∈
      deleteResource (some "tok") true "res-1" ∧
    (deleteResource (some "tok") true "res-1").all
      (fun e => !e.isPersistApproval) = true :=
  ⟨by decide, rfl⟩

/-- C2 amended: the client obtains an explicit in-memory operator
confirmation immediately before issuing the delete or upgrade request, but
persists no durable `approved` record before (or around) the provider call:
the confirmation prompt opens every trace that invokes an endpoint, and no
trace of either flow contains an approval-record write. -/
theorem C2_amended_confirm_then_execute_without_persist (tok : Option String)
    (confirmed : Bool) (rid utype : String) :
    ((deleteResource tok confirmed rid).all
      (fun e => !e.isPersistApproval) = true) ∧
    ((upgradeResource tok confirmed rid utype).all
      (fun e => !e.isPersistApproval) = true) ∧
    (ClientEvent.httpPost "/api/resources/delete" (RequestBody.resource rid) ∈
        deleteResource tok confirmed rid →
      (deleteResource tok confirmed rid).head? =
        some (ClientEvent.confirmPrompt rid)) ∧
    (ClientEvent.httpPost "/api/resources/upgrade"
        (RequestBody.resourceUpgrade rid utype) ∈
        upgradeResource tok confirmed rid utype →
      (upgradeResource tok confirmed rid utype).head? =
        some (ClientEvent.confirmPrompt rid)) := by
  cases tok with
  | none =>
    refine ⟨rfl, rfl, ?_, ?_⟩
    · intro hmem
      simp [deleteResource] at hmem
    · intro hmem
      simp [upgradeResource] at hmem
  | some t =>
    cases confirmed with
    | false =>
      refine ⟨rfl, rfl, ?_, ?_⟩
      · intro hmem
        simp [deleteResource] at hmem
      · intro hmem
        simp [upgradeResource] at hmem
    | true => exact ⟨rfl, rfl, fun _ => rfl, fun _ => rfl⟩

/-- Witness for the amended C2 at a concrete input. -/
theorem C2_amended_witness :
    (deleteResource (some "tok") true "res-2").all
      (fun e => !e.isPersistApproval) = true ∧
    (deleteResource (some "tok") true "res-2").head? =
      some (ClientEvent.confirmPrompt "res-2") := by
  refine ⟨(C2_amended_confirm_then_execute_without_persist (some "tok") true
    "res-2" "sku-upgrade").1, ?_⟩
  exact (C2_amended_confirm_then_execute_without_persist (some "tok") true
    "res-2" "sku-upgrade").2.2.1 (by decide)

/-- C3: classify returns disjoint orphaned and deprecated sets: no resource
is referenced by both result sets of one scan call, and a resource matching
an orphaned rule lands in the orphaned set and never the deprecated set. -/
theorem C3_classify_mutually_exclusive (resources : List Resource)
    (rs : Ruleset) (enrich : Resource → Option Enrichment) (r : Resource) :
    ¬(r ∈ (classify resources rs enrich).orphaned.map Finding.resource ∧
       r ∈ (classify resources rs enrich).deprecated.map Finding.resource) ∧
    (r ∈ resources → rs.isOrphaned r = true →
      r ∈ (classify resources rs enrich).orphaned.map Finding.resource ∧
      r ∉ (classify resources rs enrich).deprecated.map Finding.resource) := by
  rw [classify_orphaned_resources, classify_deprecated_resources]
  constructor
  · rintro ⟨ho, hd⟩
    rw [List.mem_filter] at ho hd
    rcases ho with ⟨-, ho⟩
    rcases hd with ⟨-, hd⟩
    simp [ho] at hd
  · intro hr hor
    refine ⟨List.mem_filter.mpr ⟨hr, hor⟩, ?_⟩
    intro hd
    rw [List.mem_filter] at hd
    rcases hd with ⟨-, hd⟩
    simp [hor] at hd

/-- Witness for C3: the unattached public IP of scenario 1 is classified
orphaned and not deprecated. -/
theorem C3_witness :
    sampleIp ∈ (classify [sampleIp] sampleRuleset
      (fun _ => none)).orphaned.map Finding.resource ∧
    sampleIp ∉ (classify [sampleIp] sampleRuleset
      (fun _ => none)).deprecated.map Finding.resource :=
  (C3_classify_mutually_exclusive [sampleIp] sampleRuleset (fun _ => none)
    sampleIp).2 (by decide) (by decide)

/-- C7: when the LLM enrichment call is unavailable, classify still returns
the rule-derived findings — the orphaned set is untouched, the deprecated
set references exactly the same resources as under any enrichment, and
every deprecated finding degrades to the rule templates with the default
priority; no error outcome exists (classify is total by construction). -/
theorem C7_enrichment_degradation (resources : List Resource) (rs : Ruleset)
    (enrich : Resource → Option Enrichment) :
    (classify resources rs (fun _ => none)).orphaned =
      (classify resources rs enrich).orphaned ∧
    (classify resources rs (fun _ => none)).deprecated.map Finding.resource =
      (classify resources rs enrich).deprecated.map Finding.resource ∧
    (∀ f ∈ (classify resources rs (fun _ => none)).deprecated,
      f.priority = defaultPriority ∧
      f.analysis = rs.deprecatedIssue f.resource ∧
      f.recommendation = rs.deprecatedRecommendation f.resource) := by
  refine ⟨rfl, ?_, ?_⟩
  · rw [classify_deprecated_resources, classify_deprecated_resources]
  · intro f hf
    simp only [classify, List.mem_map] at hf
    rcases hf with ⟨a, _, rfl⟩
    simp [deprecatedFinding]

/-- Witness for C7 at a concrete deprecated resource. -/
theorem C7_witness :
    (classify [sampleSql] sampleRuleset (fun _ => none)).deprecated.map
        Finding.resource =
      (classify [sampleSql] sampleRuleset (fun _ =>
        some { analysis := "llm analysis"
               recommendation := "llm recommendation"
               priority := Priority.critical })).deprecated.map
        Finding.resource ∧
    (deprecatedFinding sampleRuleset (fun _ => none) sampleSql).priority =
      defaultPriority := by
  constructor
  · exact (C7_enrichment_degradation [sampleSql] sampleRuleset _).2.1
  · exact ((C7_enrichment_degradation [sampleSql] sampleRuleset
      (fun _ => none)).2.2
      (deprecatedFinding sampleRuleset (fun _ => none) sampleSql)
      (by decide)).1

/-- C4: recordFinding is an idempotent upsert — when a `proposed` Action for
the resource id and kind already exists, the call returns that Action's id
and leaves the store unchanged, and a repeated call always returns exactly
what the first call returned, creating no duplicate. -/
theorem C4_recordFinding_idempotent (s : ApprovalStore) (rid : String)
    (k : ActionKind) :
    (∀ a, findProposed s rid k = some a → recordFinding s rid k = (a.id, s)) ∧
    recordFinding (recordFinding s rid k).2 rid k = recordFinding s rid k := by
  constructor
  · intro a ha
    simp [recordFinding, ha]
  · cases h : findProposed s rid k with
    | some a => simp [recordFinding, h]
    | none =>
      have hstep : findProposed
          { actions := s.actions ++
              [{ id := s.nextId, resourceId := rid, kind := k,
                 status := ActionStatus.proposed, approver := none,
                 outcomeDetail := none }],
            nextId := s.nextId + 1 } rid k =
          some { id := s.nextId, resourceId := rid, kind := k,
                 status := ActionStatus.proposed, approver := none,
                 outcomeDetail := none } := by
        unfold findProposed at h ⊢
        rw [find?_append_of_none _ _ _ h]
        simp [List.find?]
      simp [recordFinding, h, hstep]

/-- Witness for C4 at the sample store holding a proposed delete Action. -/
theorem C4_witness :
    recordFinding sampleStore "res-1" ActionKind.delete = (0, sampleStore) :=
  (C4_recordFinding_idempotent sampleStore "res-1" ActionKind.delete).1
    { id := 0
      resourceId := "res-1"
      kind := ActionKind.delete
      status := ActionStatus.proposed
      approver := none
      outcomeDetail := none }
    (by decide)

/-- C5: approve fails with `NotFound` when no Action has the id, fails with
`InvalidTransition` carrying the current state (surfaced as HTTP 409) when
the Action is not `proposed`, and succeeds only from `proposed`. -/
theorem C5_approve_requires_proposed (s : ApprovalStore) (actionId : Nat)
    (approver : String) :
    (findAction s actionId = none →
      approve s actionId approver = Except.error StoreError.notFound) ∧
    (∀ a, findAction s actionId = some a →
      a.status ≠ ActionStatus.proposed →
      approve s actionId approver =
        Except.error (StoreError.invalidTransition a.status) ∧
      errorHttpStatus (StoreError.invalidTransition a.status) = 409) ∧
    (∀ r, approve s actionId approver = Except.ok r →
      ∃ a, findAction s actionId = some a ∧
        a.status = ActionStatus.proposed) := by
  refine ⟨?_, ?_, ?_⟩
  · intro h
    simp [approve, h]
  · intro a ha hst
    exact ⟨by simp [approve, ha, hst], rfl⟩
  · intro r hr
    cases ha : findAction s actionId with
    | none => simp [approve, ha] at hr
    | some a =>
      by_cases hst : a.status = ActionStatus.proposed
      · exact ⟨a, rfl, hst⟩
      · simp [approve, ha, hst] at hr

/-- Witness for C5: `NotFound` on an empty store, `InvalidTransition` with
409 on an already-approved Action, and success from `proposed`. -/
theorem C5_witness :
    approve { actions := [], nextId := 0 } 7 "operator" =
      Except.error StoreError.notFound ∧
    (approve
      { actions :=
          [{ id := 0, resourceId := "res-1", kind := ActionKind.delete,
             status := ActionStatus.approved, approver := some "op",
             outcomeDetail := none }],
        nextId := 1 } 0 "operator" =
      Except.error (StoreError.invalidTransition ActionStatus.approved) ∧
      errorHttpStatus (StoreError.invalidTransition ActionStatus.approved) = 409) ∧
    (∃ a, findAction sampleStore 0 = some a ∧
      a.status = ActionStatus.proposed) := by
  refine ⟨?_, ?_, ?_⟩
  · exact (C5_approve_requires_proposed { actions := [], nextId := 0 } 7
      "operator").1 (by decide)
  · exact (C5_approve_requires_proposed
      { actions :=
          [{ id := 0, resourceId := "res-1", kind := ActionKind.delete,
             status := ActionStatus.approved, approver := some "op",
             outcomeDetail := none }],
        nextId := 1 } 0 "operator").2.1
      { id := 0, resourceId := "res-1", kind := ActionKind.delete,
        status := ActionStatus.approved, approver := some "op",
        outcomeDetail := none }
      (by decide) (by decide)
  · exact (C5_approve_requires_proposed sampleStore 0 "operator").2.2
      ({ id := 0, resourceId := "res-1", kind := ActionKind.delete,
         status := ActionStatus.approved, approver := some "operator",
         outcomeDetail := none },
       { actions :=
           [{ id := 0, resourceId := "res-1", kind := ActionKind.delete,
              status := ActionStatus.approved, approver := some "operator",
              outcomeDetail := none }],
         nextId := 1 })
      rfl

/-- C6: execute is idempotent on completed actions — on an Action whose
status is `succeeded` it is a no-op returning the stored prior outcome,
making no provider call and leaving the Action unchanged. -/
theorem C6_execute_noop_on_succeeded (p : Provider) (a : Action)
    (h : a.status = ActionStatus.succeeded) :
    execute p a = Except.ok
      { action := a
        outcomeDetail := a.outcomeDetail.getD "succeeded"
        calls := []
        manualSteps := [] } := by
  simp [execute, h]

/-- Witness for C6 at a concrete succeeded Action. -/
theorem C6_witness :
    execute sampleProvider
      { id := 3, resourceId := "res-9", kind := ActionKind.delete,
        status := ActionStatus.succeeded, approver := some "op",
        outcomeDetail := some "succeeded" } =
      Except.ok
        { action :=
            { id := 3, resourceId := "res-9", kind := ActionKind.delete,
              status := ActionStatus.succeeded, approver := some "op",
              outcomeDetail := some "succeeded" }
          outcomeDetail := "succeeded"
          calls := []
          manualSteps := [] } :=
  C6_execute_noop_on_succeeded sampleProvider
    { id := 3, resourceId := "res-9", kind := ActionKind.delete,
      status := ActionStatus.succeeded, approver := some "op",
      outcomeDetail := some "succeeded" } rfl

end TenantOptimizer
